import Mathlib

/-!
Verification of the `dmur_analysis` core pipeline
(`src/dmur_analysis/core/dmur_calculator.py`,
`src/dmur_analysis/core/downtown_analyzer.py`,
`src/dmur_analysis/utils/validation.py`).

The DMUR score calculator works on floating point values; it is embedded
over `ℝ`.  The analyzer's record loading, focus-area selection and
percentile thresholding are discrete/rational computations and are
embedded over `ℚ` so that concrete runs are kernel-computable.  Library
collaborators (scipy's Delaunay triangulation, sklearn's DBSCAN labels,
shapely's polygon objects) are modelled as inputs: the triangulation, the
cluster labels and the boundary-containment predicate are parameters of
the corresponding functions, exactly as the source consumes their output.
-/

namespace DMUR

/-- `DMURConfig` from `dmur_calculator.py` (weights and normalisation
constants for the four component scores). -/
structure DMURConfig where
  mxi_weight : ℝ
  balance_weight : ℝ
  density_weight : ℝ
  diversity_weight : ℝ
  max_distance_threshold : ℝ
  optimal_residential_ratio : ℝ
  urban_density_benchmark : ℝ

/-- The default configuration values of `DMURConfig`. -/
def defaultConfig : DMURConfig :=
  { mxi_weight := 0.4, balance_weight := 0.3, density_weight := 0.2,
    diversity_weight := 0.1, max_distance_threshold := 0.005,
    optimal_residential_ratio := 25.0, urban_density_benchmark := 1000.0 }

/-- A residential listing row (`lat, lon, bedrooms, area_sqm, price`). -/
structure Listing where
  lat : ℝ
  lon : ℝ
  bedrooms : ℤ
  area_sqm : ℝ
  price : ℝ

/-- A row of the `business_locations` DataFrame; only the coordinates are
read by the calculator. -/
structure BusinessLoc where
  lat : ℝ
  lon : ℝ

/-- Euclidean distance in degree space between a listing and a business,
as computed by `scipy.spatial.distance.cdist(..., metric=euclidean)` on
the `[lat, lon]` columns. -/
noncomputable def dist (l : Listing) (b : BusinessLoc) : ℝ :=
  Real.sqrt ((l.lat - b.lat) ^ 2 + (l.lon - b.lon) ^ 2)

/-- Distance from listing `l` to its nearest business (row minimum of the
`cdist` matrix), for a non-empty business list `b :: bs`. -/
noncomputable def nearestDist (l : Listing) (b : BusinessLoc)
    (bs : List BusinessLoc) : ℝ :=
  (bs.map (dist l)).foldl min (dist l b)

/-- `DMURCalculator._calculate_mxi_score`: 0 if there are no businesses,
otherwise `max(0, 1 - avg_nearest_distance / max_distance_threshold)`. -/
noncomputable def mxiScore (cfg : DMURConfig) (listings : List Listing)
    (biz : List BusinessLoc) : ℝ :=
  match biz with
  | [] => 0
  | b :: bs =>
    let minDists := listings.map (fun l => nearestDist l b bs)
    let avg := minDists.sum / (listings.length : ℝ)
    max 0 (1 - avg / cfg.max_distance_threshold)

/-- `np.log10 x`, modelled as `Real.log x / Real.log 10`. -/
noncomputable def log10 (x : ℝ) : ℝ := Real.log x / Real.log 10

/-- `DMURCalculator._calculate_balance_score`: 0 if there are no
businesses, otherwise `max(0, 1 - |log10(ratio / optimal_ratio)|)` where
`ratio = listings / businesses`. -/
noncomputable def balanceScore (cfg : DMURConfig) (listings : List Listing)
    (biz : List BusinessLoc) : ℝ :=
  match biz with
  | [] => 0
  | _ :: _ =>
    let actual_ratio := (listings.length : ℝ) / (biz.length : ℝ)
    let ratio_deviation := |log10 (actual_ratio / cfg.optimal_residential_ratio)|
    max 0 (1 - ratio_deviation)

/-- `DMURCalculator._calculate_density_score`.  The shapely boundary is a
collaborator; its `.area` (in squared degrees) enters as `area_deg2`.
`area_km2 = area_deg2 * 111 * (111 * cos(radians(mean lat)))`; score 0 if
`area_km2 ≤ 0`, else `min(1, (n/area_km2) / benchmark)`. -/
noncomputable def densityScore (cfg : DMURConfig) (listings : List Listing)
    (area_deg2 : ℝ) : ℝ :=
  let lat_avg := (listings.map Listing.lat).sum / (listings.length : ℝ)
  let km_per_deg_lat : ℝ := 111.0
  let km_per_deg_lon : ℝ := 111.0 * Real.cos (lat_avg * Real.pi / 180)
  let area_km2 := area_deg2 * km_per_deg_lat * km_per_deg_lon
  if area_km2 ≤ 0 then 0
  else
    let units_per_km2 := (listings.length : ℝ) / area_km2
    min 1.0 (units_per_km2 / cfg.urban_density_benchmark)

/-- `DMURCalculator._calculate_diversity_score`: `value_counts` of the
`bedrooms` column (the distinct values with their multiplicities); score 0
when at most one distinct value occurs, else the Shannon entropy of the
proportions normalised by `log 5` and capped at 1. -/
noncomputable def diversityScore (listings : List Listing) : ℝ :=
  let beds := listings.map Listing.bedrooms
  let uniq := beds.dedup
  if uniq.length ≤ 1 then 0
  else
    let n := listings.length
    let terms := uniq.map (fun v =>
      let p := ((beds.count v : ℝ)) / (n : ℝ)
      p * Real.log p)
    let shannon := -terms.sum
    min 1.0 (shannon / Real.log 5)

/-- Python's `round(x, 3)`.  Modelled as rounding `x * 1000` to the
nearest integer (Mathlib's `round`, half away from the floor); Python's
half-to-even tie rule differs only at exact `0.0005` ties, which none of
the verified statements touch. -/
noncomputable def round3 (x : ℝ) : ℝ := ((round (x * 1000) : ℤ) : ℝ) / 1000

/-- The `component_scores` sub-dictionary of a DMUR result. -/
structure ComponentScores where
  mxi_score : ℝ
  balance_score : ℝ
  density_score : ℝ
  diversity_score : ℝ

/-- The result dictionary built by `DMURCalculator.calculate_dmur`; the
presentation-only entries (city name, per-bedroom histogram, average
distance) are not modelled. -/
structure DMURResults where
  dmur_score : ℝ
  component_scores : ComponentScores
  total_listings : ℕ
  total_businesses : ℕ

/-- `DMURCalculator._empty_results`: the all-zero result returned when no
listing falls inside the boundary. -/
def emptyResults : DMURResults :=
  { dmur_score := 0,
    component_scores :=
      { mxi_score := 0, balance_score := 0, density_score := 0,
        diversity_score := 0 },
    total_listings := 0, total_businesses := 0 }

/-- `DMURCalculator._filter_downtown_listings`: keep the listings whose
point `(lon, lat)` the shapely boundary `contains`.  The boundary is a
collaborator object, modelled by its containment predicate `B`. -/
def filterDowntownListings (listings : List Listing)
    (B : ℝ × ℝ → Bool) : List Listing :=
  listings.filter (fun l => B (l.lon, l.lat))

/-- `DMURCalculator.calculate_dmur`: filter the listings by the boundary,
return `_empty_results` when none survive, otherwise the four component
scores (rounded to 3 decimals) and their weighted combination. -/
noncomputable def calculateDMUR (cfg : DMURConfig) (listings : List Listing)
    (B : ℝ × ℝ → Bool) (biz : List BusinessLoc) (area_deg2 : ℝ) :
    DMURResults :=
  let downtown := filterDowntownListings listings B
  if downtown.length = 0 then emptyResults
  else
    let m := mxiScore cfg downtown biz
    let b := balanceScore cfg downtown biz
    let d := densityScore cfg downtown area_deg2
    let v := diversityScore downtown
    let dmur := cfg.mxi_weight * m + cfg.balance_weight * b +
      cfg.density_weight * d + cfg.diversity_weight * v
    { dmur_score := round3 dmur,
      component_scores :=
        { mxi_score := round3 m, balance_score := round3 b,
          density_score := round3 d, diversity_score := round3 v },
      total_listings := downtown.length,
      total_businesses := biz.length }

/-! ## Downtown analyzer: business loading and filtering
(`downtown_analyzer.py`).  Coordinates are embedded over `ℚ`; a Python
dict that may lack keys is a record of `Option` fields. -/

/-- Python exceptions that the analysis can surface.  `valueError` and
`keyError` are the built-ins actually raised by the source.
`insufficientDataError` and `missingFieldError` are modelled from the
spec: the spec's §7 taxonomy names these distinct exception types, but no
such class exists anywhere in the source; the constructors exist so that
statements about the spec's taxonomy can be written down. -/
inductive PyErr where
  | valueError : String → PyErr
  | keyError : String → PyErr
  | insufficientDataError : String → PyErr
  | missingFieldError : String → PyErr
  deriving Repr, DecidableEq

/-- Whether a computation ended in the spec's `InsufficientDataError`. -/
def isInsufficientDataErr {α : Type} : Except PyErr α → Bool
  | .error (.insufficientDataError _) => true
  | _ => false

/-- Whether a computation ended in the spec's `MissingFieldError`. -/
def isMissingFieldErr {α : Type} : Except PyErr α → Bool
  | .error (.missingFieldError _) => true
  | _ => false

/-- A raw business record (a JSON dict): any key may be absent. -/
structure RawBusiness where
  id : Option String
  name : Option String
  business_type : Option String
  business_subtype : Option String
  lat : Option ℚ
  lon : Option ℚ

/-- A loaded business row of `businesses_df`. -/
structure Business where
  id : String
  name : String
  type : String
  subtype : String
  lat : ℚ
  lon : ℚ
  deriving Repr, DecidableEq

/-- Python truthiness of `business.get(key)` for a numeric field: falsy
when the key is absent (`None`) or the value is `0`/`0.0`. -/
def truthy : Option ℚ → Bool
  | none => false
  | some x => !(x == 0)

/-- `business[key]` on a possibly missing string key: `KeyError` when
absent. -/
def requireStr (key : String) : Option String → Except PyErr String
  | some s => .ok s
  | none => .error (.keyError key)

/-- `business[key]` on a possibly missing numeric key: `KeyError` when
absent. -/
def requireQ (key : String) : Option ℚ → Except PyErr ℚ
  | some x => .ok x
  | none => .error (.keyError key)

/-- `DowntownAnalyzer.COMMERCIAL_TYPES`. -/
def COMMERCIAL_TYPES : List String :=
  ["shop", "amenity", "office", "tourism", "craft", "healthcare"]

/-- `DowntownAnalyzer.COMMERCIAL_AMENITIES`. -/
def COMMERCIAL_AMENITIES : List String :=
  ["restaurant", "cafe", "bar", "pub", "fast_food", "food_court",
   "ice_cream", "bank", "atm", "cinema", "theatre", "nightclub", "casino",
   "pharmacy", "clinic", "doctors", "dentist", "fuel", "car_wash",
   "car_rental", "post_office", "courier", "internet_cafe", "library",
   "coworking_space"]

/-- `DowntownAnalyzer._is_commercial_business` (`business.get(..., '')`
defaults missing type fields to the empty string). -/
def isCommercialBusiness (b : RawBusiness) : Bool :=
  let btype := b.business_type.getD ""
  let subtype := b.business_subtype.getD ""
  if !(COMMERCIAL_TYPES.contains btype) then false
  else if btype == "amenity" && !(COMMERCIAL_AMENITIES.contains subtype) then
    false
  else if btype == "building" &&
      !(["commercial", "retail", "office", "hotel"].contains subtype) then
    false
  else if btype == "leisure" &&
      !(["fitness_centre", "sports_centre", "bowling_alley"].contains subtype)
    then false
  else true

/-- One iteration of the loading loop in
`DowntownAnalyzer._load_business_data`: skip the record (`ok none`) when
`lat`/`lon` is falsy or the commercial filter drops it; otherwise build
the row by direct dict indexing, in the source's literal order
(`id, lat, lon, name, business_type, business_subtype`), which raises
`KeyError` at the first absent key. -/
def loadOne (commercialOnly : Bool) (b : RawBusiness) :
    Except PyErr (Option Business) :=
  if !(truthy b.lat) || !(truthy b.lon) then .ok none
  else if commercialOnly && !(isCommercialBusiness b) then .ok none
  else do
    let i ← requireStr "id" b.id
    let la ← requireQ "lat" b.lat
    let lo ← requireQ "lon" b.lon
    let nm ← requireStr "name" b.name
    let ty ← requireStr "business_type" b.business_type
    let st ← requireStr "business_subtype" b.business_subtype
    pure (some { id := i, name := nm, type := ty, subtype := st,
                 lat := la, lon := lo })

/-- The loading loop of `DowntownAnalyzer._load_business_data` over the
`businesses` array (before the focus-area step): the first `KeyError`
aborts the whole load, skipped records contribute nothing. -/
def loadBusinessData (commercialOnly : Bool) :
    List RawBusiness → Except PyErr (List Business)
  | [] => .ok []
  | r :: rs => do
    let o ← loadOne commercialOnly r
    let rest ← loadBusinessData commercialOnly rs
    pure (match o with | none => rest | some b => b :: rest)

/-- Coordinate-range check on latitude from
`DataValidator._validate_business_record` (`-90 <= lat <= 90`). -/
def latInRange (x : ℚ) : Bool := -90 ≤ x && x ≤ 90

/-- Coordinate-range check on longitude from
`DataValidator._validate_business_record` (`-180 <= lon <= 180`). -/
def lonInRange (x : ℚ) : Bool := -180 ≤ x && x ≤ 180

/-- The first key the loading loop's dict literal indexes that is absent
from the record, following the source's evaluation order
`id, lat, lon, name, business_type, business_subtype` (`lat`/`lon` are
guaranteed present once the truthiness check passed, so only the other
four can be the first missing one). -/
def firstMissingKey (r : RawBusiness) : Option String :=
  if r.id = none then some "id"
  else if r.name = none then some "name"
  else if r.business_type = none then some "business_type"
  else if r.business_subtype = none then some "business_subtype"
  else none

/-! ## Focus-area selection (`_apply_focus_area`,
`_auto_determine_focus_area`). -/

/-- Minimum of a list of rationals (`np.min`; the `0` default is never
reached on the non-empty lists the source feeds it). -/
def listMinQ : List ℚ → ℚ
  | [] => 0
  | x :: xs => xs.foldl min x

/-- Maximum of a list of rationals (`np.max`). -/
def listMaxQ : List ℚ → ℚ
  | [] => 0
  | x :: xs => xs.foldl max x

/-- A focus-area bounding box `(min_lat, min_lon, max_lat, max_lon)`. -/
abbrev FocusBox := ℚ × ℚ × ℚ × ℚ

/-- `DowntownAnalyzer._apply_focus_area`: keep the rows inside the box. -/
def applyFocusArea (df : List Business) (box : FocusBox) : List Business :=
  df.filter (fun b =>
    box.1 ≤ b.lat && b.lat ≤ box.2.2.1 && box.2.1 ≤ b.lon && b.lon ≤ box.2.2.2)

/-- `np.linspace a b num`: `num` evenly spaced points from `a` to `b`
inclusive. -/
def linspace (a b : ℚ) (num : ℕ) : List ℚ :=
  (List.range num).map (fun i : ℕ => a + (b - a) * (i : ℚ) / ((num : ℚ) - 1))

/-- Membership of `x` in bin `i` of `np.histogram2d` for the edge list
`edges`: `edges[i] ≤ x < edges[i+1]`, with the last bin closed on the
right. -/
def inBin (edges : List ℚ) (i : ℕ) (x : ℚ) : Bool :=
  edges.getD i 0 ≤ x &&
    (x < edges.getD (i + 1) 0 ||
      (i + 2 == edges.length && x ≤ edges.getD (i + 1) 0))

/-- `np.histogram2d(lats, lons, bins=[latEdges, lonEdges])`: when the bins
argument is a pair of edge arrays, those arrays are the bin *edges*, so an
edge list of length `m` yields `m - 1` bins per axis. -/
def hist2d (lats lons : List ℚ) (latEdges lonEdges : List ℚ) :
    List (List ℕ) :=
  (List.range (latEdges.length - 1)).map (fun i =>
    (List.range (lonEdges.length - 1)).map (fun j =>
      ((lats.zip lons).filter
        (fun q => inBin latEdges i q.1 && inBin lonEdges j q.2)).length))

/-- `np.argmax`: index of the first occurrence of the maximum. -/
def argmaxAux : List ℕ → ℕ → ℕ → ℕ → ℕ
  | [], _, bi, _ => bi
  | x :: xs, i, bi, bv =>
    if bv < x then argmaxAux xs (i + 1) i x else argmaxAux xs (i + 1) bi bv

/-- `np.argmax` over a list (0 on empty input). -/
def argmaxIdx : List ℕ → ℕ
  | [] => 0
  | x :: xs => argmaxAux xs 1 0 x

/-- The `lat_bins` edge list of the histogram fallback:
`np.linspace(lats.min(), lats.max(), 20)` — 20 edges. -/
def fallbackLatBins (df : List Business) : List ℚ :=
  linspace (listMinQ (df.map Business.lat)) (listMaxQ (df.map Business.lat)) 20

/-- The `lon_bins` edge list of the histogram fallback. -/
def fallbackLonBins (df : List Business) : List ℚ :=
  linspace (listMinQ (df.map Business.lon)) (listMaxQ (df.map Business.lon)) 20

/-- The 2-D histogram computed by the fallback branch of
`_auto_determine_focus_area`; with 20 edges per axis it has 19×19
bins. -/
def fallbackHistogram (df : List Business) : List (List ℕ) :=
  hist2d (df.map Business.lat) (df.map Business.lon)
    (fallbackLatBins df) (fallbackLonBins df)

/-- The histogram fallback branch of
`DowntownAnalyzer._auto_determine_focus_area`: 2-D histogram over edge
lists `linspace(min, max, 20)` (hence 19 bins per axis), window of
`window_size = 3` around the row-major `argmax` bin (clamped to the edge
index range), padding `min(lat_range, lon_range) * 0.02`. -/
def histogramPeakFocus (df : List Business) : FocusBox :=
  let lats := df.map Business.lat
  let lons := df.map Business.lon
  let lat_range := listMaxQ lats - listMinQ lats
  let lon_range := listMaxQ lons - listMinQ lons
  let lat_bins := fallbackLatBins df
  let lon_bins := fallbackLonBins df
  let hist := fallbackHistogram df
  let ncols := lon_bins.length - 1
  let flatIdx := argmaxIdx hist.flatten
  let p0 := flatIdx / ncols
  let p1 := flatIdx % ncols
  let lat_start := p0 - 1
  let lat_end := min (lat_bins.length - 1) (p0 + 2)
  let lon_start := p1 - 1
  let lon_end := min (lon_bins.length - 1) (p1 + 2)
  let padding := min lat_range lon_range * (2 / 100)
  (lat_bins.getD lat_start 0 - padding, lon_bins.getD lon_start 0 - padding,
   lat_bins.getD lat_end 0 + padding, lon_bins.getD lon_end 0 + padding)

/-- `DowntownAnalyzer._auto_determine_focus_area`.  The DBSCAN clustering
is a sklearn collaborator: its per-point `labels` array enters as an
input (noise points are labelled `-1`).  With fewer than 10 points the
full bounding box is returned; otherwise the largest cluster's padded
bounding box (`np.unique` sorts the non-noise labels, `np.argmax` takes
the first count maximum), and if every point is noise, the histogram-peak
fallback. -/
def autoDetermineFocusArea (df : List Business) (labels : List ℤ) :
    FocusBox :=
  let lats := df.map Business.lat
  let lons := df.map Business.lon
  if df.length < 10 then
    (listMinQ lats, listMinQ lons, listMaxQ lats, listMaxQ lons)
  else
    let lat_range := listMaxQ lats - listMinQ lats
    let lon_range := listMaxQ lons - listMinQ lons
    let unique_labels :=
      ((labels.filter (fun l => 0 ≤ l)).dedup).insertionSort (· ≤ ·)
    if unique_labels.length = 0 then histogramPeakFocus df
    else
      let counts := unique_labels.map (fun l => labels.count l)
      let largest := unique_labels.getD (argmaxIdx counts) 0
      let cluster := ((df.zip labels).filter
        (fun q => q.2 == largest)).map Prod.fst
      let clats := cluster.map Business.lat
      let clons := cluster.map Business.lon
      let padding := min lat_range lon_range * (2 / 100)
      (listMinQ clats - padding, listMinQ clons - padding,
       listMaxQ clats + padding, listMaxQ clons + padding)

/-! ## The analyze entry point up to the insufficient-data check
(`DowntownAnalyzer.analyze`, lines 57-99). -/

/-- `AnalysisConfig` from `downtown_analyzer.py`. -/
structure AnalysisConfig where
  density_threshold_percentile : ℚ
  bandwidth : ℚ
  grid_size : ℚ
  alpha : ℚ
  buffer_distance : ℚ
  commercial_only : Bool
  auto_focus : Bool
  focus_area : Option FocusBox

/-- The default `AnalysisConfig` values. -/
def defaultAnalysisConfig : AnalysisConfig :=
  { density_threshold_percentile := 90, bandwidth := 2 / 1000,
    grid_size := 2 / 1000, alpha := 2 / 100, buffer_distance := 3 / 1000,
    commercial_only := true, auto_focus := true, focus_area := none }

/-- The tail of `_load_business_data`: the loaded rows with the focus
area applied (an explicit box wins over auto-focus; `labels` is the
DBSCAN output consumed by the auto path). -/
def filteredBusinesses (cfg : AnalysisConfig) (labels : List ℤ)
    (recs : List RawBusiness) : Except PyErr (List Business) := do
  let tmp ← loadBusinessData cfg.commercial_only recs
  match cfg.focus_area with
  | some box => pure (applyFocusArea tmp box)
  | none =>
    if cfg.auto_focus then
      pure (applyFocusArea tmp (autoDetermineFocusArea tmp labels))
    else pure tmp

/-- `DowntownAnalyzer.analyze` up to and including its data-size guard:
with fewer than 3 businesses after loading and filtering it raises
`ValueError(f"Insufficient business data: {n} businesses found")`;
otherwise the pipeline continues with the filtered rows. -/
def analyzeCheck (cfg : AnalysisConfig) (labels : List ℤ)
    (recs : List RawBusiness) : Except PyErr (List Business) := do
  let df ← filteredBusinesses cfg labels recs
  if df.length < 3 then
    let n := df.length
    Except.error (.valueError
      ("Insufficient business data: " ++ toString n ++ " businesses found"))
  else pure df

/-! ## Percentile thresholding (`_identify_high_density_areas`). -/

/-- Linear interpolation into a sorted value list at fractional index
`pos`, as `np.percentile` does with its default interpolation:
`s[⌊pos⌋] + fract(pos) * (s[⌊pos⌋+1] - s[⌊pos⌋])` (the upper index
clamped to the last element). -/
def percentileInterp (s : List ℚ) (pos : ℚ) : ℚ :=
  let i := (⌊pos⌋).toNat
  let lo := s.getD i 0
  let hi := s.getD (min (i + 1) (s.length - 1)) 0
  lo + Int.fract pos * (hi - lo)

/-- `np.percentile(vals, q)`: sort ascending and interpolate at position
`q / 100 * (n - 1)`.  (numpy's introsort and `insertionSort` produce the
same sorted list.) -/
def percentile (vals : List ℚ) (q : ℚ) : ℚ :=
  percentileInterp (vals.insertionSort (· ≤ ·))
    (q / 100 * ((vals.length : ℚ) - 1))

/-- Number of grid values at or above a threshold
(`self.density_grid >= threshold` selects the high-density nodes). -/
def countAtOrAbove (vals : List ℚ) (thr : ℚ) : ℕ :=
  (vals.filter (fun v => thr ≤ v)).length

/-- Number of qualifying high-density grid nodes at threshold percentile
`q`, as selected by `_identify_high_density_areas`. -/
def qualifyingCount (vals : List ℚ) (q : ℚ) : ℕ :=
  countAtOrAbove vals (percentile vals q)

/-! ## Boundary creation (`_create_downtown_boundary`).  The Delaunay
triangulation is a scipy collaborator: the triangle list enters as an
input.  shapely's `unary_union` of the surviving triangles and the
buffer step are presentation of the chosen triangle set, so a boundary
is modelled by which branch produced it and from what data. -/

/-- A point in degree space. -/
abbrev Pt := ℝ × ℝ

/-- Length of one triangle edge
(`np.sqrt(np.sum((a - b)**2))` in degree space). -/
noncomputable def edgeLen (p q : Pt) : ℝ :=
  Real.sqrt ((p.1 - q.1) ^ 2 + (p.2 - q.2) ^ 2)

/-- A triangle of the Delaunay triangulation, by its corner
coordinates. -/
abbrev Tri := Pt × Pt × Pt

/-- `max(edge_lengths)` over the three edges of a triangle. -/
noncomputable def triMaxEdge (t : Tri) : ℝ :=
  max (edgeLen t.1 t.2.1) (max (edgeLen t.2.1 t.2.2) (edgeLen t.2.2 t.1))

/-- The alpha filter loop: a triangle is appended iff
`max(edge_lengths) < self.config.alpha` (strict). -/
noncomputable def keptTriangles (alpha : ℝ) (tris : List Tri) : List Tri :=
  tris.filter (fun t => triMaxEdge t < alpha)

/-- The boundary produced by `_create_downtown_boundary`: either the
union of the surviving alpha-filtered triangles, or the convex hull of
the selected high-density points. -/
inductive Boundary where
  | alphaShape : List Tri → Boundary
  | convexHull : List Pt → Boundary

/-- `DowntownAnalyzer._create_downtown_boundary`: run the alpha filter
over the triangulation; if any triangle survives, union the survivors
(`if triangles:` branch), otherwise the raised
`ValueError("No triangles passed alpha test")` is caught and the convex
hull of the points is used.  (The `except` also catches collaborator
failures such as `Delaunay` on degenerate input, outside this model; the
subsequent `buffer` post-processing is a shapely operation on the
returned shape.) -/
noncomputable def createDowntownBoundary (alpha : ℝ) (pts : List Pt)
    (tris : List Tri) : Boundary :=
  let kept := keptTriangles alpha tris
  if kept.length = 0 then .convexHull pts else .alphaShape kept

/-! ## Helper lemmas. -/

/-- A left fold with `min` stays at or above any common lower bound. -/
theorem foldl_min_le_bound {a c : ℝ} {xs : List ℝ} (ha : c ≤ a)
    (hxs : ∀ x ∈ xs, c ≤ x) : c ≤ xs.foldl min a := by
  induction xs generalizing a with
  | nil => simpa using ha
  | cons x r ih =>
    simp only [List.foldl_cons]
    exact ih (le_min ha (hxs x (List.mem_cons_self x r)))
      (fun y hy => hxs y (List.mem_cons_of_mem x hy))

/-- A sum of nonpositive reals is nonpositive. -/
theorem list_sum_nonpos {l : List ℝ} (h : ∀ x ∈ l, x ≤ 0) : l.sum ≤ 0 := by
  induction l with
  | nil => simp
  | cons x r ih =>
    simp only [List.sum_cons]
    have hx := h x (List.mem_cons_self x r)
    have hr := ih (fun y hy => h y (List.mem_cons_of_mem x hy))
    linarith

/-- `dedup` of a non-trivial constant list is a singleton. -/
theorem dedup_replicate_ne_zero {α : Type} [DecidableEq α] (a : α) {n : ℕ}
    (h : n ≠ 0) : (List.replicate n a).dedup = [a] := by
  induction n with
  | zero => simp at h
  | succ m ih =>
    cases m with
    | zero => simp
    | succ k =>
      rw [List.replicate_succ,
        List.dedup_cons_of_mem (by simp [List.mem_replicate])]
      exact ih (by simp)

/-- Rounding preserves an exact zero. -/
theorem round3_zero : round3 0 = 0 := by
  simp [round3]

/-- Nearest-business distances are nonnegative. -/
theorem nearestDist_nonneg (l : Listing) (b : BusinessLoc)
    (bs : List BusinessLoc) : 0 ≤ nearestDist l b bs := by
  refine foldl_min_le_bound (Real.sqrt_nonneg _) ?_
  intro x hx
  obtain ⟨y, -, rfl⟩ := List.mem_map.mp hx
  exact Real.sqrt_nonneg _

/-! ## Claim theorems for the DMUR score calculator. -/

/-- C3: if zero listings fall inside the downtown boundary,
`calculate_dmur` returns the `_empty_results` structure — `dmur_score`
is `0.0` and all four component scores are `0.0` — rather than raising
(the model is a total function: no error value exists on this path). -/
theorem c3_zero_listings_returns_all_zero (cfg : DMURConfig)
    (listings : List Listing) (B : ℝ × ℝ → Bool) (biz : List BusinessLoc)
    (area_deg2 : ℝ) (h : filterDowntownListings listings B = []) :
    calculateDMUR cfg listings B biz area_deg2 = emptyResults ∧
    (calculateDMUR cfg listings B biz area_deg2).dmur_score = 0 ∧
    (calculateDMUR cfg listings B biz area_deg2).component_scores.mxi_score = 0 ∧
    (calculateDMUR cfg listings B biz area_deg2).component_scores.balance_score = 0 ∧
    (calculateDMUR cfg listings B biz area_deg2).component_scores.density_score = 0 ∧
    (calculateDMUR cfg listings B biz area_deg2).component_scores.diversity_score = 0 := by
  have : calculateDMUR cfg listings B biz area_deg2 = emptyResults := by
    simp [calculateDMUR, h]
  exact ⟨this, by simp [this, emptyResults]⟩

/-- Concrete run of `c3_zero_listings_returns_all_zero`: one listing, a
boundary containing nothing. -/
theorem c3_zero_listings_returns_all_zero_witness :
    filterDowntownListings [⟨40, -73, 1, 50, 100⟩] (fun _ => false) = [] ∧
    calculateDMUR defaultConfig [⟨40, -73, 1, 50, 100⟩] (fun _ => false)
      [] 1 = emptyResults := by
  have h : filterDowntownListings [(⟨40, -73, 1, 50, 100⟩ : Listing)]
      (fun _ => false) = [] := by
    simp [filterDowntownListings]
  exact ⟨h, (c3_zero_listings_returns_all_zero defaultConfig _ _ [] 1 h).1⟩

/-- C4: when all downtown listings share one bedroom count the
diversity score is exactly `0.0`, via the explicit
`len(bedroom_counts) <= 1` special case of
`_calculate_diversity_score` (the entropy formula is never reached). -/
theorem c4_single_bedroom_count_diversity_zero (listings : List Listing)
    (b : ℤ) (hne : listings ≠ []) (hall : ∀ l ∈ listings, l.bedrooms = b) :
    diversityScore listings = 0 := by
  have hmap : listings.map Listing.bedrooms =
      List.replicate (listings.map Listing.bedrooms).length b := by
    refine List.eq_replicate_of_mem ?_
    intro x hx
    obtain ⟨l, hl, rfl⟩ := List.mem_map.mp hx
    exact hall l hl
  have hlen : (listings.map Listing.bedrooms).length ≠ 0 := by
    simpa [List.length_eq_zero] using hne
  have hded : (listings.map Listing.bedrooms).dedup = [b] := by
    rw [hmap, dedup_replicate_ne_zero b hlen]
  simp [diversityScore, hded]

/-- Concrete run of `c4_single_bedroom_count_diversity_zero`: three
one-bedroom listings. -/
theorem c4_single_bedroom_count_diversity_zero_witness :
    ([⟨40, -73, 1, 50, 100⟩, ⟨40.1, -73.1, 1, 60, 110⟩,
      ⟨40.2, -73.2, 1, 70, 120⟩] : List Listing) ≠ [] ∧
    diversityScore [⟨40, -73, 1, 50, 100⟩, ⟨40.1, -73.1, 1, 60, 110⟩,
      ⟨40.2, -73.2, 1, 70, 120⟩] = 0 := by
  refine ⟨by simp, ?_⟩
  exact c4_single_bedroom_count_diversity_zero _ 1 (by simp)
    (by intro l hl; fin_cases hl <;> rfl)

/-- C5: with a non-empty set of downtown listings and an empty business
set, `calculate_dmur` yields `balance_score == 0.0` and
`mxi_score == 0.0` exactly — the guards `len(business_locations) == 0`
return `0.0` before any ratio or distance is formed, so no NaN and no
exception arises (the model is total and real-valued on this path). -/
theorem c5_empty_business_set_zero_scores (cfg : DMURConfig)
    (listings : List Listing) (B : ℝ × ℝ → Bool) (area_deg2 : ℝ)
    (h : filterDowntownListings listings B ≠ []) :
    (calculateDMUR cfg listings B [] area_deg2).component_scores.balance_score
      = 0 ∧
    (calculateDMUR cfg listings B [] area_deg2).component_scores.mxi_score
      = 0 := by
  have hlen : ¬((filterDowntownListings listings B).length = 0) := by
    simpa [List.length_eq_zero] using h
  constructor <;>
    simp [calculateDMUR, hlen, balanceScore, mxiScore, round3]

/-- Concrete run of `c5_empty_business_set_zero_scores`: one listing
inside the boundary, zero businesses. -/
theorem c5_empty_business_set_zero_scores_witness :
    filterDowntownListings [⟨40, -73, 1, 50, 100⟩] (fun _ => true) ≠ [] ∧
    (calculateDMUR defaultConfig [⟨40, -73, 1, 50, 100⟩] (fun _ => true)
      [] 1).component_scores.balance_score = 0 := by
  have h : filterDowntownListings [(⟨40, -73, 1, 50, 100⟩ : Listing)]
      (fun _ => true) ≠ [] := by
    simp [filterDowntownListings]
  exact ⟨h, (c5_empty_business_set_zero_scores defaultConfig _ _ 1 h).1⟩

/-- The MXI score lies in `[0,1]` for a positive distance threshold. -/
theorem mxiScore_bounds (cfg : DMURConfig) (listings : List Listing)
    (biz : List BusinessLoc) (hthr : 0 < cfg.max_distance_threshold) :
    0 ≤ mxiScore cfg listings biz ∧ mxiScore cfg listings biz ≤ 1 := by
  cases biz with
  | nil => simp [mxiScore]
  | cons b bs =>
    simp only [mxiScore]
    have hsum : 0 ≤ (listings.map (fun l => nearestDist l b bs)).sum := by
      refine List.sum_nonneg ?_
      intro x hx
      obtain ⟨l, -, rfl⟩ := List.mem_map.mp hx
      exact nearestDist_nonneg l b bs
    have havg : 0 ≤ (listings.map (fun l => nearestDist l b bs)).sum /
        (listings.length : ℝ) := div_nonneg hsum (Nat.cast_nonneg _)
    refine ⟨le_max_left 0 _, max_le zero_le_one ?_⟩
    have hq := div_nonneg havg hthr.le
    linarith

/-- The balance score lies in `[0,1]`. -/
theorem balanceScore_bounds (cfg : DMURConfig) (listings : List Listing)
    (biz : List BusinessLoc) :
    0 ≤ balanceScore cfg listings biz ∧ balanceScore cfg listings biz ≤ 1 := by
  cases biz with
  | nil => simp [balanceScore]
  | cons b bs =>
    simp only [balanceScore]
    refine ⟨le_max_left 0 _, max_le zero_le_one ?_⟩
    have := abs_nonneg (log10 (((listings.length : ℝ) / ((b :: bs).length : ℝ))
      / cfg.optimal_residential_ratio))
    linarith

/-- The density score lies in `[0,1]` for a positive benchmark. -/
theorem densityScore_bounds (cfg : DMURConfig) (listings : List Listing)
    (area_deg2 : ℝ) (hbench : 0 < cfg.urban_density_benchmark) :
    0 ≤ densityScore cfg listings area_deg2 ∧
    densityScore cfg listings area_deg2 ≤ 1 := by
  simp only [densityScore]
  split_ifs with h
  · norm_num
  · push_neg at h
    have hz : 0 ≤ ((listings.length : ℝ) /
        (area_deg2 * 111.0 * (111.0 * Real.cos
          ((listings.map Listing.lat).sum / (listings.length : ℝ) *
            Real.pi / 180)))) / cfg.urban_density_benchmark :=
      div_nonneg (div_nonneg (Nat.cast_nonneg _) h.le) hbench.le
    constructor
    · exact le_min (by norm_num) hz
    · exact le_trans (min_le_left _ _) (by norm_num)

/-- The diversity score lies in `[0,1]`. -/
theorem diversityScore_bounds (listings : List Listing) :
    0 ≤ diversityScore listings ∧ diversityScore listings ≤ 1 := by
  simp only [diversityScore]
  split_ifs with h
  · norm_num
  · push_neg at h
    have hne : listings.map Listing.bedrooms ≠ [] := by
      intro he
      rw [he] at h
      simp at h
    have hn : 0 < (listings.length : ℝ) := by
      have : listings ≠ [] := fun he => hne (by simp [he])
      exact_mod_cast Nat.pos_of_ne_zero
        (fun h0 => this (List.length_eq_zero.mp h0))
    have hterms : ∀ x ∈ (listings.map Listing.bedrooms).dedup.map (fun v =>
        ((((listings.map Listing.bedrooms).count v : ℝ)) /
          (listings.length : ℝ)) *
        Real.log ((((listings.map Listing.bedrooms).count v : ℝ)) /
          (listings.length : ℝ))), x ≤ 0 := by
      intro x hx
      obtain ⟨v, -, rfl⟩ := List.mem_map.mp hx
      have hp0 : 0 ≤ (((listings.map Listing.bedrooms).count v : ℝ)) /
          (listings.length : ℝ) :=
        div_nonneg (Nat.cast_nonneg _) hn.le
      have hp1 : (((listings.map Listing.bedrooms).count v : ℝ)) /
          (listings.length : ℝ) ≤ 1 := by
        refine (div_le_one hn).mpr ?_
        have := List.count_le_length v (listings.map Listing.bedrooms)
        exact_mod_cast (by simpa [List.length_map] using this)
      exact mul_nonpos_of_nonneg_of_nonpos hp0 (Real.log_nonpos hp0 hp1)
    have hH : 0 ≤ -((listings.map Listing.bedrooms).dedup.map (fun v =>
        ((((listings.map Listing.bedrooms).count v : ℝ)) /
          (listings.length : ℝ)) *
        Real.log ((((listings.map Listing.bedrooms).count v : ℝ)) /
          (listings.length : ℝ)))).sum :=
      neg_nonneg.mpr (list_sum_nonpos hterms)
    have hlog5 : 0 < Real.log 5 := Real.log_pos (by norm_num)
    constructor
    · exact le_min (by norm_num) (div_nonneg hH hlog5.le)
    · exact le_trans (min_le_left _ _) (by norm_num)

/-- C1: for every non-empty downtown listing set and every business set
(and positive normalisation constants), each of the four component
scores — MXI, balance, density, diversity — lies in `[0,1]`. -/
theorem c1_component_scores_bounded (cfg : DMURConfig)
    (listings : List Listing) (biz : List BusinessLoc) (area_deg2 : ℝ)
    (hne : listings ≠ []) (hthr : 0 < cfg.max_distance_threshold)
    (hbench : 0 < cfg.urban_density_benchmark) :
    (0 ≤ mxiScore cfg listings biz ∧ mxiScore cfg listings biz ≤ 1) ∧
    (0 ≤ balanceScore cfg listings biz ∧
      balanceScore cfg listings biz ≤ 1) ∧
    (0 ≤ densityScore cfg listings area_deg2 ∧
      densityScore cfg listings area_deg2 ≤ 1) ∧
    (0 ≤ diversityScore listings ∧ diversityScore listings ≤ 1) :=
  ⟨mxiScore_bounds cfg listings biz hthr,
   balanceScore_bounds cfg listings biz,
   densityScore_bounds cfg listings area_deg2 hbench,
   diversityScore_bounds listings⟩

/-- Concrete run of `c1_component_scores_bounded`: one listing, one
business, the default configuration. -/
theorem c1_component_scores_bounded_witness :
    (([⟨40, -73, 1, 50, 100⟩] : List Listing) ≠ [] ∧
     0 < defaultConfig.max_distance_threshold ∧
     0 < defaultConfig.urban_density_benchmark) ∧
    (0 ≤ mxiScore defaultConfig [⟨40, -73, 1, 50, 100⟩] [⟨40, -73⟩] ∧
      mxiScore defaultConfig [⟨40, -73, 1, 50, 100⟩] [⟨40, -73⟩] ≤ 1) ∧
    (0 ≤ balanceScore defaultConfig [⟨40, -73, 1, 50, 100⟩] [⟨40, -73⟩] ∧
      balanceScore defaultConfig [⟨40, -73, 1, 50, 100⟩] [⟨40, -73⟩] ≤ 1) ∧
    (0 ≤ densityScore defaultConfig [⟨40, -73, 1, 50, 100⟩] 1 ∧
      densityScore defaultConfig [⟨40, -73, 1, 50, 100⟩] 1 ≤ 1) ∧
    (0 ≤ diversityScore [⟨40, -73, 1, 50, 100⟩] ∧
      diversityScore [⟨40, -73, 1, 50, 100⟩] ≤ 1) := by
  refine ⟨⟨by simp, by norm_num [defaultConfig], by norm_num [defaultConfig]⟩, ?_⟩
  exact c1_component_scores_bounded defaultConfig _ _ 1 (by simp)
    (by norm_num [defaultConfig]) (by norm_num [defaultConfig])

/-! ## Claim theorems for business loading and the analyze guard. -/

/-- C10: `_load_business_data` tests `business.get('lat')` /
`business.get('lon')` for Python truthiness, so a record whose `lat` or
`lon` equals `0` — a coordinate the validator's own range checks accept —
is silently dropped, exactly as a record with the field absent. -/
theorem c10_zero_coordinate_silently_excluded (co : Bool) (r : RawBusiness)
    (rest : List RawBusiness)
    (h : r.lat = some 0 ∨ r.lon = some 0 ∨ r.lat = none ∨ r.lon = none) :
    loadBusinessData co (r :: rest) = loadBusinessData co rest ∧
    latInRange 0 = true ∧ lonInRange 0 = true := by
  have hskip : loadOne co r = .ok none := by
    rcases h with h | h | h | h <;> simp [loadOne, truthy, h]
  refine ⟨?_, by decide, by decide⟩
  show Except.bind (loadOne co r) _ = _
  rw [hskip]
  cases hrest : loadBusinessData co rest <;> rfl

/-- Concrete run of `c10_zero_coordinate_silently_excluded`: a fully
populated shop record sitting at latitude 0 contributes nothing. -/
theorem c10_zero_coordinate_silently_excluded_witness :
    ((⟨some "1", some "a", some "shop", some "x", some 0, some 7⟩ :
      RawBusiness).lat = some 0 ∨
     (⟨some "1", some "a", some "shop", some "x", some 0, some 7⟩ :
      RawBusiness).lon = some 0 ∨
     (⟨some "1", some "a", some "shop", some "x", some 0, some 7⟩ :
      RawBusiness).lat = none ∨
     (⟨some "1", some "a", some "shop", some "x", some 0, some 7⟩ :
      RawBusiness).lon = none) ∧
    loadBusinessData true
      [⟨some "1", some "a", some "shop", some "x", some 0, some 7⟩] =
      loadBusinessData true [] := by
  refine ⟨Or.inl rfl, ?_⟩
  exact (c10_zero_coordinate_silently_excluded true _ [] (Or.inl rfl)).1

/-- C9 counterexample: a commercial record with truthy coordinates but no
`name` key makes `_load_business_data` crash with `KeyError("name")` —
the direct `business['name']` access — rather than being rejected through
any `MissingFieldError` (no such class exists in the source). -/
theorem c9_missing_field_counterexample :
    loadBusinessData true
      [⟨some "1", none, some "shop", some "x", some 1, some 1⟩] =
      .error (.keyError "name") ∧
    isMissingFieldErr (loadBusinessData true
      [⟨some "1", none, some "shop", some "x", some 1, some 1⟩]) = false := by
  exact ⟨rfl, rfl⟩

/-- C9 (amended): a record that passes the truthiness and commercial
filters but lacks any of the directly indexed fields `id`, `name`,
`business_type` or `business_subtype` crashes the load with a `KeyError`
naming the first missing field in the source's dict-literal evaluation
order, and no `MissingFieldError` is ever produced. -/
theorem c9_missing_field_keyerror (co : Bool) (r : RawBusiness)
    (rest : List RawBusiness) (k : String)
    (hlat : truthy r.lat = true) (hlon : truthy r.lon = true)
    (hcomm : co = true → isCommercialBusiness r = true)
    (hmiss : firstMissingKey r = some k) :
    loadBusinessData co (r :: rest) = .error (.keyError k) ∧
    isMissingFieldErr (loadBusinessData co (r :: rest)) = false := by
  obtain ⟨x, hx⟩ : ∃ x, r.lat = some x := by
    cases hr : r.lat
    · rw [hr] at hlat; simp [truthy] at hlat
    · exact ⟨_, rfl⟩
  obtain ⟨y, hy⟩ : ∃ y, r.lon = some y := by
    cases hr : r.lon
    · rw [hr] at hlon; simp [truthy] at hlon
    · exact ⟨_, rfl⟩
  rw [hx] at hlat
  rw [hy] at hlon
  have hone : loadOne co r = .error (.keyError k) := by
    rcases hid : r.id with _ | i
    · have hk := hmiss
      simp only [firstMissingKey, hid, if_pos, Option.some.injEq] at hk
      subst hk
      cases co with
      | false =>
        simp [loadOne, hlat, hlon, hid, hx, hy, requireStr, requireQ,
          Except.bind, Bind.bind]
      | true =>
        simp [loadOne, hlat, hlon, hcomm rfl, hid, hx, hy, requireStr,
          requireQ, Except.bind, Bind.bind]
    · rcases hnm : r.name with _ | nm
      · have hk := hmiss
        simp only [firstMissingKey, hid, hnm, Option.some.injEq,
          reduceCtorEq, if_false, if_pos] at hk
        subst hk
        cases co with
        | false =>
          simp [loadOne, hlat, hlon, hid, hnm, hx, hy, requireStr,
            requireQ, Except.bind, Bind.bind]
        | true =>
          simp [loadOne, hlat, hlon, hcomm rfl, hid, hnm, hx, hy,
            requireStr, requireQ, Except.bind, Bind.bind]
      · rcases hty : r.business_type with _ | ty
        · have hk := hmiss
          simp only [firstMissingKey, hid, hnm, hty, Option.some.injEq,
            reduceCtorEq, if_false, if_pos] at hk
          subst hk
          cases co with
          | true =>
            exfalso
            have hc := hcomm rfl
            rw [isCommercialBusiness, hty] at hc
            simp [COMMERCIAL_TYPES] at hc
          | false =>
            simp [loadOne, hlat, hlon, hid, hnm, hty, hx, hy, requireStr,
              requireQ, Except.bind, Bind.bind]
        · rcases hst : r.business_subtype with _ | st
          · have hk := hmiss
            simp only [firstMissingKey, hid, hnm, hty, hst,
              Option.some.injEq, reduceCtorEq, if_false, if_pos] at hk
            subst hk
            cases co with
            | false =>
              simp [loadOne, hlat, hlon, hid, hnm, hty, hst, hx, hy,
                requireStr, requireQ, Except.bind, Bind.bind]
            | true =>
              simp [loadOne, hlat, hlon, hcomm rfl, hid, hnm, hty, hst,
                hx, hy, requireStr, requireQ, Except.bind, Bind.bind]
          · exfalso
            simp [firstMissingKey, hid, hnm, hty, hst] at hmiss
  have hload : loadBusinessData co (r :: rest) = .error (.keyError k) := by
    show Except.bind (loadOne co r) _ = _
    rw [hone]
    rfl
  exact ⟨hload, by rw [hload]; rfl⟩

/-- Concrete run of `c9_missing_field_keyerror`: a shop record whose
first (and only) missing field is `business_subtype`. -/
theorem c9_missing_field_keyerror_witness :
    (truthy (⟨some "1", some "a", some "shop", none, some 1, some 1⟩ :
        RawBusiness).lat = true ∧
     truthy (⟨some "1", some "a", some "shop", none, some 1, some 1⟩ :
        RawBusiness).lon = true ∧
     isCommercialBusiness
       ⟨some "1", some "a", some "shop", none, some 1, some 1⟩ = true ∧
     firstMissingKey ⟨some "1", some "a", some "shop", none, some 1, some 1⟩
       = some "business_subtype") ∧
    loadBusinessData true
      [⟨some "1", some "a", some "shop", none, some 1, some 1⟩] =
      .error (.keyError "business_subtype") ∧
    isMissingFieldErr (loadBusinessData true
      [⟨some "1", some "a", some "shop", none, some 1, some 1⟩]) =
      false := by
  refine ⟨⟨rfl, rfl, by decide, by decide⟩, ?_⟩
  exact c9_missing_field_keyerror true _ [] "business_subtype" rfl rfl
    (fun _ => by decide) (by decide)

/-- C2 counterexample: with two surviving businesses the analyze guard
raises the built-in `ValueError("Insufficient business data: 2
businesses found")` — not any distinct `InsufficientDataError` type
(which exists nowhere in the source; the unit tests themselves assert
`pytest.raises(ValueError)`). -/
theorem c2_generic_valueerror_counterexample :
    analyzeCheck { defaultAnalysisConfig with
        auto_focus := false, commercial_only := false } []
      [⟨some "1", some "a", some "shop", some "x", some 1, some 1⟩,
       ⟨some "2", some "b", some "shop", some "x", some 2, some 2⟩] =
      .error (.valueError "Insufficient business data: 2 businesses found")
    ∧ isInsufficientDataErr (analyzeCheck { defaultAnalysisConfig with
        auto_focus := false, commercial_only := false } []
      [⟨some "1", some "a", some "shop", some "x", some 1, some 1⟩,
       ⟨some "2", some "b", some "shop", some "x", some 2, some 2⟩]) =
      false := by
  exact ⟨by rfl, by rfl⟩

/-- C2 (amended): whenever fewer than 3 businesses survive loading and
the focus-area filters, `DowntownAnalyzer.analyze` raises the generic
`ValueError` whose message reports the surviving count; it is not a
distinct exception type. -/
theorem c2_insufficient_data_valueerror (cfg : AnalysisConfig)
    (labels : List ℤ) (recs : List RawBusiness) (df : List Business)
    (hdf : filteredBusinesses cfg labels recs = .ok df)
    (hlen : df.length < 3) :
    analyzeCheck cfg labels recs = .error (.valueError
      ("Insufficient business data: " ++ toString df.length ++
        " businesses found")) ∧
    isInsufficientDataErr (analyzeCheck cfg labels recs) = false := by
  have hrun : analyzeCheck cfg labels recs = .error (.valueError
      ("Insufficient business data: " ++ toString df.length ++
        " businesses found")) := by
    show Except.bind (filteredBusinesses cfg labels recs) _ = _
    rw [hdf]
    simp [Except.bind, hlen]
  exact ⟨hrun, by rw [hrun]; rfl⟩

/-- Concrete run of `c2_insufficient_data_valueerror` on the two-record
input of the counterexample. -/
theorem c2_insufficient_data_valueerror_witness :
    (filteredBusinesses { defaultAnalysisConfig with
        auto_focus := false, commercial_only := false } []
      [⟨some "1", some "a", some "shop", some "x", some 1, some 1⟩,
       ⟨some "2", some "b", some "shop", some "x", some 2, some 2⟩] =
      .ok [⟨"1", "a", "shop", "x", 1, 1⟩, ⟨"2", "b", "shop", "x", 2, 2⟩] ∧
     ([(⟨"1", "a", "shop", "x", 1, 1⟩ : Business),
       ⟨"2", "b", "shop", "x", 2, 2⟩]).length < 3) ∧
    analyzeCheck { defaultAnalysisConfig with
        auto_focus := false, commercial_only := false } []
      [⟨some "1", some "a", some "shop", some "x", some 1, some 1⟩,
       ⟨some "2", some "b", some "shop", some "x", some 2, some 2⟩] =
      .error (.valueError
        ("Insufficient business data: " ++
          toString ([(⟨"1", "a", "shop", "x", 1, 1⟩ : Business),
            ⟨"2", "b", "shop", "x", 2, 2⟩]).length ++
          " businesses found")) := by
  refine ⟨⟨by rfl, by decide⟩, ?_⟩
  exact (c2_insufficient_data_valueerror _ [] _ _ (by rfl) (by decide)).1

/-! ## Claim theorems for boundary creation. -/

/-- C6 counterexample: the 3-4-5 right triangle `(1,2),(1,5),(5,2)` has
longest edge exactly `5`, and an alpha threshold of `5` discards it (the
source keeps a triangle only when `max(edge_lengths) < alpha`, strictly),
so the boundary falls back to the convex hull although a triangle whose
longest edge equals alpha was available. -/
theorem c6_alpha_equality_kept_counterexample :
    triMaxEdge ((1, 2), (1, 5), (5, 2)) = 5 ∧
    keptTriangles 5 [((1, 2), (1, 5), (5, 2))] = [] ∧
    createDowntownBoundary 5 [(1, 2), (1, 5), (5, 2)]
      [((1, 2), (1, 5), (5, 2))] = .convexHull [(1, 2), (1, 5), (5, 2)] := by
  have e1 : edgeLen ((1 : ℝ), (2 : ℝ)) ((1 : ℝ), (5 : ℝ)) = 3 := by
    rw [edgeLen]
    norm_num
    rw [show (9 : ℝ) = 3 ^ 2 by norm_num]
    exact Real.sqrt_sq (by norm_num)
  have e2 : edgeLen ((1 : ℝ), (5 : ℝ)) ((5 : ℝ), (2 : ℝ)) = 5 := by
    rw [edgeLen]
    norm_num
    rw [show (25 : ℝ) = 5 ^ 2 by norm_num]
    exact Real.sqrt_sq (by norm_num)
  have e3 : edgeLen ((5 : ℝ), (2 : ℝ)) ((1 : ℝ), (2 : ℝ)) = 4 := by
    rw [edgeLen]
    norm_num
    rw [show (16 : ℝ) = 4 ^ 2 by norm_num]
    exact Real.sqrt_sq (by norm_num)
  have hmax : triMaxEdge ((1, 2), (1, 5), (5, 2)) = 5 := by
    rw [triMaxEdge]
    dsimp only
    rw [e1, e2, e3]
    rw [max_eq_left (by norm_num : (4 : ℝ) ≤ 5),
      max_eq_right (by norm_num : (3 : ℝ) ≤ 5)]
  have hkept : keptTriangles 5 [((1, 2), (1, 5), (5, 2))] = [] := by
    rw [keptTriangles]
    rw [List.filter_cons_of_neg]
    · rfl
    · rw [decide_eq_true_eq, hmax]
      exact lt_irrefl 5
  refine ⟨hmax, hkept, ?_⟩
  rw [createDowntownBoundary, hkept]
  rfl

/-- C6 (amended): the alpha filter keeps exactly the triangles whose
longest edge is *strictly below* alpha (one whose longest edge equals
alpha is discarded); the survivors are unioned into the boundary, and
the convex hull of the selected points is used precisely when no
triangle survives. -/
theorem c6_alpha_filter_strict (alpha : ℝ) (pts : List Pt) (tris : List Tri)
    (t : Tri) (ht : t ∈ tris) :
    (t ∈ keptTriangles alpha tris ↔ triMaxEdge t < alpha) ∧
    (createDowntownBoundary alpha pts tris = .convexHull pts ↔
      keptTriangles alpha tris = []) ∧
    (keptTriangles alpha tris ≠ [] →
      createDowntownBoundary alpha pts tris =
        .alphaShape (keptTriangles alpha tris)) := by
  refine ⟨?_, ?_, ?_⟩
  · simp [keptTriangles, List.mem_filter, ht]
  · rw [createDowntownBoundary]
    by_cases h : (keptTriangles alpha tris).length = 0
    · simp only [h, if_pos rfl]
      simp [List.length_eq_zero.mp h]
    · have hne : keptTriangles alpha tris ≠ [] := by
        simpa [List.length_eq_zero] using h
      simp only [if_neg h]
      simp [hne]
  · intro hne
    have h : ¬((keptTriangles alpha tris).length = 0) := by
      simpa [List.length_eq_zero] using hne
    rw [createDowntownBoundary]
    simp only [if_neg h]

/-- Concrete run of `c6_alpha_filter_strict`: with `alpha = 10` the 3-4-5
triangle survives the filter and forms the alpha-shape boundary. -/
theorem c6_alpha_filter_strict_witness :
    ((1, 2), (1, 5), (5, 2)) ∈ [(((1, 2), (1, 5), (5, 2)) : Tri)] ∧
    (((((1, 2), (1, 5), (5, 2)) : Tri) ∈
        keptTriangles 10 [((1, 2), (1, 5), (5, 2))] ↔
      triMaxEdge ((1, 2), (1, 5), (5, 2)) < 10) ∧
     (createDowntownBoundary 10 [(1, 2), (1, 5), (5, 2)]
        [((1, 2), (1, 5), (5, 2))] = .convexHull [(1, 2), (1, 5), (5, 2)] ↔
      keptTriangles 10 [((1, 2), (1, 5), (5, 2))] = []) ∧
     (keptTriangles 10 [((1, 2), (1, 5), (5, 2))] ≠ [] →
      createDowntownBoundary 10 [(1, 2), (1, 5), (5, 2)]
        [((1, 2), (1, 5), (5, 2))] =
        .alphaShape (keptTriangles 10 [((1, 2), (1, 5), (5, 2))]))) := by
  exact ⟨by simp, c6_alpha_filter_strict 10 _ _ _ (by simp)⟩

/-! ## Claim theorems for the auto-focus histogram fallback. -/

/-- Ten businesses on a diagonal, enough to enter the clustering branch
of `_auto_determine_focus_area`. -/
def tenPointDf : List Business :=
  (List.range 10).map (fun i =>
    { id := toString i, name := "b", type := "shop", subtype := "x",
      lat := (i : ℚ), lon := (i : ℚ) })

/-- C7 counterexample: the fallback histogram is built from
`np.linspace(min, max, 20)` — 20 *edges*, so `np.histogram2d` produces a
19×19 histogram, not the 20×20 bins the claim states; the all-noise
branch on this concrete input indeed uses the histogram fallback. -/
theorem c7_histogram_bins_counterexample :
    (fallbackHistogram tenPointDf).length = 19 ∧
    ((fallbackHistogram tenPointDf).length = 20 → False) ∧
    (fallbackHistogram tenPointDf).all (fun row => row.length == 19) =
      true := by
  exact ⟨by decide, by decide, by decide⟩

/-- C7 (amended): when every DBSCAN label is noise and at least 10
points are present, the focus area comes from the histogram-peak
fallback, whose 2-D histogram has 19×19 bins (20 linspace edges per
axis); the 3×3-bin window around the peak and the 2%-of-smaller-span
padding are as `histogramPeakFocus` computes them. -/
theorem c7_all_noise_histogram_fallback (df : List Business)
    (labels : List ℤ) (hlen : 10 ≤ df.length)
    (hnoise : labels.all (fun l => l < 0) = true) :
    autoDetermineFocusArea df labels = histogramPeakFocus df ∧
    (fallbackHistogram df).length = 19 ∧
    (fallbackHistogram df).all (fun row => row.length == 19) = true := by
  refine ⟨?_, ?_, ?_⟩
  · rw [autoDetermineFocusArea]
    have h10 : ¬(df.length < 10) := by omega
    have hfil : labels.filter (fun l => decide (0 ≤ l)) = [] := by
      rw [List.filter_eq_nil_iff]
      intro a ha
      have := List.all_eq_true.mp hnoise a ha
      simp only [decide_eq_true_eq] at this ⊢
      omega
    simp [h10, hfil]
  · rw [fallbackHistogram, hist2d, List.length_map, List.length_range,
      fallbackLatBins, linspace, List.length_map, List.length_range]
  · rw [List.all_eq_true]
    intro row hrow
    rw [fallbackHistogram, hist2d] at hrow
    obtain ⟨i, -, rfl⟩ := List.mem_map.mp hrow
    rw [List.length_map, List.length_range, fallbackLonBins, linspace,
      List.length_map, List.length_range]
    rfl

/-- Concrete run of `c7_all_noise_histogram_fallback` on the diagonal
ten-point input with all-noise labels. -/
theorem c7_all_noise_histogram_fallback_witness :
    (10 ≤ tenPointDf.length ∧
     (List.replicate 10 (-1 : ℤ)).all (fun l => l < 0) = true) ∧
    autoDetermineFocusArea tenPointDf (List.replicate 10 (-1)) =
      histogramPeakFocus tenPointDf ∧
    (fallbackHistogram tenPointDf).length = 19 ∧
    (fallbackHistogram tenPointDf).all (fun row => row.length == 19) =
      true := by
  exact ⟨⟨by decide, by decide⟩,
    c7_all_noise_histogram_fallback tenPointDf _ (by decide) (by decide)⟩

/-! ## Claim theorems for percentile thresholding. -/

/-- In a list sorted ascending, entries grow with the index. -/
theorem sorted_getD_mono {s : List ℚ} (hs : List.Sorted (· ≤ ·) s)
    {i j : ℕ} (hij : i ≤ j) (hj : j < s.length) :
    s.getD i 0 ≤ s.getD j 0 := by
  have hi : i < s.length := lt_of_le_of_lt hij hj
  rw [List.getD_eq_getElem _ _ hi, List.getD_eq_getElem _ _ hj]
  rcases eq_or_lt_of_le hij with rfl | hlt
  · exact le_refl _
  · have := hs.rel_get_of_lt (a := ⟨i, hi⟩) (b := ⟨j, hj⟩) (by exact hlt)
    simpa [List.get_eq_getElem] using this

/-- Linear interpolation into a sorted list is monotone in the
fractional position. -/
theorem percentileInterp_mono {s : List ℚ} (hs : List.Sorted (· ≤ ·) s)
    (hne : s ≠ []) {p q : ℚ} (hp0 : 0 ≤ p) (hpq : p ≤ q)
    (hq : q ≤ (s.length : ℚ) - 1) :
    percentileInterp s p ≤ percentileInterp s q := by
  have hn1 : 1 ≤ s.length := List.length_pos.mpr hne
  have hq0 : 0 ≤ q := le_trans hp0 hpq
  have hp' : p ≤ (s.length : ℚ) - 1 := le_trans hpq hq
  have hfp0 : (0 : ℤ) ≤ ⌊p⌋ := Int.floor_nonneg.mpr hp0
  have hfq0 : (0 : ℤ) ≤ ⌊q⌋ := Int.floor_nonneg.mpr hq0
  have hfpq : ⌊p⌋ ≤ ⌊q⌋ := Int.floor_le_floor hpq
  have hcast : ((s.length : ℚ) - 1) = (((s.length : ℤ) - 1 : ℤ) : ℚ) := by
    push_cast
    ring
  have hfp_le : ⌊p⌋ ≤ (s.length : ℤ) - 1 := by
    have h1 : ⌊p⌋ ≤ ⌊(s.length : ℚ) - 1⌋ := Int.floor_le_floor hp'
    rwa [hcast, Int.floor_intCast] at h1
  have hfq_le : ⌊q⌋ ≤ (s.length : ℤ) - 1 := by
    have h1 : ⌊q⌋ ≤ ⌊(s.length : ℚ) - 1⌋ := Int.floor_le_floor hq
    rwa [hcast, Int.floor_intCast] at h1
  have hi_lt : (⌊p⌋).toNat < s.length := by omega
  have hj_lt : (⌊q⌋).toNat < s.length := by omega
  have hm1_lt : min ((⌊p⌋).toNat + 1) (s.length - 1) < s.length := by omega
  have hm2_lt : min ((⌊q⌋).toNat + 1) (s.length - 1) < s.length := by omega
  have hm1_ge : (⌊p⌋).toNat ≤ min ((⌊p⌋).toNat + 1) (s.length - 1) := by
    omega
  have hm2_ge : (⌊q⌋).toNat ≤ min ((⌊q⌋).toNat + 1) (s.length - 1) := by
    omega
  have he1 : s.getD (⌊p⌋).toNat 0 ≤
      s.getD (min ((⌊p⌋).toNat + 1) (s.length - 1)) 0 :=
    sorted_getD_mono hs hm1_ge hm1_lt
  have he2 : s.getD (⌊q⌋).toNat 0 ≤
      s.getD (min ((⌊q⌋).toNat + 1) (s.length - 1)) 0 :=
    sorted_getD_mono hs hm2_ge hm2_lt
  show s.getD (⌊p⌋).toNat 0 + Int.fract p *
      (s.getD (min ((⌊p⌋).toNat + 1) (s.length - 1)) 0 -
        s.getD (⌊p⌋).toNat 0) ≤
    s.getD (⌊q⌋).toNat 0 + Int.fract q *
      (s.getD (min ((⌊q⌋).toNat + 1) (s.length - 1)) 0 -
        s.getD (⌊q⌋).toNat 0)
  rcases eq_or_lt_of_le hfpq with hfeq | hflt
  · have hieq : (⌊p⌋).toNat = (⌊q⌋).toNat := by rw [hfeq]
    rw [hieq]
    have hfr : Int.fract p ≤ Int.fract q := by
      unfold Int.fract
      rw [hfeq]
      linarith
    have hd : 0 ≤ s.getD (min ((⌊q⌋).toNat + 1) (s.length - 1)) 0 -
        s.getD (⌊q⌋).toNat 0 := sub_nonneg.mpr he2
    have := mul_le_mul_of_nonneg_right hfr hd
    linarith
  · have hij : (⌊p⌋).toNat + 1 ≤ (⌊q⌋).toNat := by omega
    have hup : s.getD (⌊p⌋).toNat 0 + Int.fract p *
        (s.getD (min ((⌊p⌋).toNat + 1) (s.length - 1)) 0 -
          s.getD (⌊p⌋).toNat 0) ≤
        s.getD (min ((⌊p⌋).toNat + 1) (s.length - 1)) 0 := by
      have hfr1 : Int.fract p ≤ 1 := (Int.fract_lt_one p).le
      have hd : 0 ≤ s.getD (min ((⌊p⌋).toNat + 1) (s.length - 1)) 0 -
          s.getD (⌊p⌋).toNat 0 := sub_nonneg.mpr he1
      have := mul_le_mul_of_nonneg_right hfr1 hd
      linarith
    have hmid : s.getD (min ((⌊p⌋).toNat + 1) (s.length - 1)) 0 ≤
        s.getD (⌊q⌋).toNat 0 :=
      sorted_getD_mono hs (by omega) hj_lt
    have hlow : s.getD (⌊q⌋).toNat 0 ≤ s.getD (⌊q⌋).toNat 0 +
        Int.fract q *
          (s.getD (min ((⌊q⌋).toNat + 1) (s.length - 1)) 0 -
            s.getD (⌊q⌋).toNat 0) := by
      have hd : 0 ≤ s.getD (min ((⌊q⌋).toNat + 1) (s.length - 1)) 0 -
          s.getD (⌊q⌋).toNat 0 := sub_nonneg.mpr he2
      have := mul_nonneg (Int.fract_nonneg q) hd
      linarith
    exact le_trans hup (le_trans hmid hlow)

/-- `np.percentile` is monotone in the percentile argument. -/
theorem percentile_mono (vals : List ℚ) (hne : vals ≠ []) {p q : ℚ}
    (hp0 : 0 ≤ p) (hpq : p ≤ q) (hq : q ≤ 100) :
    percentile vals p ≤ percentile vals q := by
  have hs : List.Sorted (· ≤ ·) (vals.insertionSort (· ≤ ·)) :=
    List.sorted_insertionSort _ _
  have hlen : (vals.insertionSort (· ≤ ·)).length = vals.length :=
    (List.perm_insertionSort _ _).length_eq
  have hsne : vals.insertionSort (· ≤ ·) ≠ [] := by
    intro h
    rw [h] at hlen
    exact hne (List.length_eq_zero.mp hlen.symm)
  have hn1 : (1 : ℚ) ≤ (vals.length : ℚ) := by
    have := List.length_pos.mpr hne
    exact_mod_cast this
  have hd : (0 : ℚ) ≤ (vals.length : ℚ) - 1 := by linarith
  refine percentileInterp_mono hs hsne ?_ ?_ ?_
  · exact mul_nonneg (div_nonneg hp0 (by norm_num)) hd
  · exact mul_le_mul_of_nonneg_right
      ((div_le_div_iff_of_pos_right (by norm_num)).mpr hpq) hd
  · rw [hlen]
    have h1 : q / 100 ≤ 1 := (div_le_one (by norm_num)).mpr hq
    have := mul_le_mul_of_nonneg_right h1 hd
    linarith

/-- A lower at-or-above threshold never selects fewer grid values. -/
theorem countAtOrAbove_anti (l : List ℚ) {t1 t2 : ℚ} (h : t1 ≤ t2) :
    countAtOrAbove l t2 ≤ countAtOrAbove l t1 := by
  unfold countAtOrAbove
  induction l with
  | nil => simp
  | cons x r ih =>
    simp only [List.filter_cons]
    by_cases h2 : t2 ≤ x
    · have h1 : t1 ≤ x := h.trans h2
      simp [h1, h2]
      omega
    · by_cases h1 : t1 ≤ x
      · simp [h1, h2]
        omega
      · simp [h1, h2]
        exact ih

/-- C8: for a fixed density grid, lowering the threshold percentile never
decreases the number of qualifying high-density grid nodes: with
`p1 ≤ p2`, the count of values at or above the `p1`-percentile threshold
dominates the count at or above the `p2`-percentile threshold. -/
theorem c8_percentile_relaxation_monotone (vals : List ℚ) (p1 p2 : ℚ)
    (hne : vals ≠ []) (h0 : 0 ≤ p1) (h12 : p1 ≤ p2) (h100 : p2 ≤ 100) :
    qualifyingCount vals p2 ≤ qualifyingCount vals p1 := by
  unfold qualifyingCount
  exact countAtOrAbove_anti vals (percentile_mono vals hne h0 h12 h100)

/-- Concrete run of `c8_percentile_relaxation_monotone`: the default
percentile 90 relaxed to 70 on a three-value grid. -/
theorem c8_percentile_relaxation_monotone_witness :
    (([1, 2, 3] : List ℚ) ≠ [] ∧ (0 : ℚ) ≤ 70 ∧ (70 : ℚ) ≤ 90 ∧
      (90 : ℚ) ≤ 100) ∧
    qualifyingCount [1, 2, 3] 90 ≤ qualifyingCount [1, 2, 3] 70 := by
  refine ⟨⟨by simp, by norm_num, by norm_num, by norm_num⟩, ?_⟩
  exact c8_percentile_relaxation_monotone [1, 2, 3] 70 90 (by simp)
    (by norm_num) (by norm_num) (by norm_num)

end DMUR
